import Mathlib

set_option maxRecDepth 10000

/-!
Shallow embedding of the NFT registry canister
(src/registries/nft/src/nft.rs) and proofs of its specification
properties.

Modelling conventions:
- `Principal` is an opaque identifier, modelled as a wrapped `Nat`.
- Rust `String` is modelled by Lean `String`; Rust's `String::len()`
  (UTF-8 byte count) is `String.utf8ByteSize`.
- The external `validator::validate_url` function is an uninterpreted
  parameter `vurl : String → Bool` of the operations that use it.
- `HashMap<Principal, NftCanister>` is modelled as an association list
  with unique keys; `HashMap::insert` replaces the binding of an
  existing key, which the model realises by filtering the key out and
  appending the new pair (iteration order of a `HashMap` is
  unspecified, so any representation with the same map semantics is
  faithful).
- A Rust panic (the `details[0]` index on an empty vector in `add`, and
  the `assert!` in `Registry::load`) is modelled by returning `none`
  from an `Option`-valued function.
- `f64` never has its value inspected by this code, so the `Float`
  variant of `DetailValue` carries an uninterpreted `UInt64` bit
  pattern.
-/

/-- Caller / canister identifier (IC principal), opaque to this code. -/
structure Principal where
  id : Nat
deriving DecidableEq, Repr

/-- The recursive tagged union of attribute values (enum DetailValue). -/
inductive DetailValue where
  | True : DetailValue
  | False : DetailValue
  | U64 : UInt64 → DetailValue
  | I64 : Int → DetailValue
  | Float : UInt64 → DetailValue
  | Text : String → DetailValue
  | Principal : Principal → DetailValue
  | Slice : List UInt8 → DetailValue
  | Vec : List DetailValue → DetailValue

/-- The stored record (struct NftCanister). -/
structure NftCanister where
  name : String
  description : String
  thumbnail : String
  frontend : Option String
  principal_id : Principal
  details : List (String × DetailValue)

/-- The error surface (enum OperationError). -/
inductive OperationError where
  | NotAuthorized : OperationError
  | NonExistentItem : OperationError
  | BadParameters : OperationError
  | Unknown : String → OperationError

/-- The registry store: HashMap of Principal to NftCanister, modelled as
an association list with unique keys. -/
abbrev Registry := List (Principal × NftCanister)

/-- HashMap insertion: replace any existing binding of the key, add the
new pair. -/
def hmInsert (m : Registry) (k : Principal) (v : NftCanister) : Registry :=
  m.filter (fun q => q.1 != k) ++ [(k, v)]

namespace Registry

/-- Registry.archive: drain the map (mem-replace with an empty map) and
return the prior contents as a list of pairs. -/
def archive (r : Registry) : List (Principal × NftCanister) × Registry :=
  (r, [])

/-- Registry.load: assert the map is empty (a failing assert is a panic,
modelled as none), then collect the archive list into the map; on
duplicate keys the later pair wins, as in HashMap FromIterator. -/
def load (r : Registry) (a : List (Principal × NftCanister)) : Option Registry :=
  if r.isEmpty then some (a.foldl (fun acc p => hmInsert acc p.1 p.2) [])
  else none

/-- Registry.add: unconditional HashMap insert keyed by principal_id,
always Ok. -/
def add (r : Registry) (canister_info : NftCanister) :
    Registry × Except OperationError Unit :=
  (hmInsert r canister_info.principal_id canister_info, Except.ok ())

/-- Registry.remove: remove the key if present and return Ok, otherwise
Err NonExistentItem. -/
def remove (r : Registry) (principal_id : Principal) :
    Registry × Except OperationError Unit :=
  if (r.find? (fun q => q.1 == principal_id)).isSome then
    (r.filter (fun q => q.1 != principal_id), Except.ok ())
  else
    (r, Except.error OperationError.NonExistentItem)

/-- Registry.get: lookup by key. -/
def get (r : Registry) (principal_id : Principal) : Option NftCanister :=
  (r.find? (fun q => q.1 == principal_id)).map (fun q => q.2)

/-- Registry.get_all: the stored records. -/
def get_all (r : Registry) : List NftCanister :=
  r.map (fun q => q.2)

end Registry

/-- The canister state: the Controller singleton plus the Registry. -/
structure State where
  controller : Principal
  registry : Registry

namespace Nft

/-- is_controller: the access guard, true iff the account equals the
stored controller. -/
def is_controller (account : Principal) (st : State) : Bool :=
  account == st.controller

/-- set_controller update method: overwrite the controller if the caller
is the current controller, else Err NotAuthorized. -/
def set_controller (caller : Principal) (st : State) (new_controller : Principal) :
    Except OperationError Unit × State :=
  if is_controller caller st then
    (Except.ok (), { st with controller := new_controller })
  else
    (Except.error OperationError.NotAuthorized, st)

/-- add update method. `vurl` stands for validator::validate_url. The
checks appear in source order: caller authorization, thumbnail URL,
frontend URL (when present), details[0] key (a panic — `none` — when
details is empty), details length, then the name/description length
check (Rust String::len, i.e. UTF-8 bytes) guarding the insertion. -/
def add (vurl : String → Bool) (caller : Principal) (st : State)
    (canister_info : NftCanister) :
    Option (Except OperationError Unit × State) :=
  if !(is_controller caller st) then
    some (Except.error OperationError.NotAuthorized, st)
  else if !(vurl canister_info.thumbnail) then
    some (Except.error OperationError.BadParameters, st)
  else if (match canister_info.frontend with
           | some f => !(vurl f)
           | none => false) then
    some (Except.error OperationError.BadParameters, st)
  else
    match canister_info.details.head? with
    | none => none
    | some kv =>
      if kv.1 != ("standard" : String) then
        some (Except.error OperationError.BadParameters, st)
      else if canister_info.details.length != 1 then
        some (Except.error OperationError.BadParameters, st)
      else if canister_info.name.utf8ByteSize ≤ 120 ∧
              canister_info.description.utf8ByteSize ≤ 1200 then
        let r := Registry.add st.registry canister_info
        some (r.2, { st with registry := r.1 })
      else
        some (Except.error OperationError.BadParameters, st)

/-- remove update method: authorization, then Registry.remove. -/
def remove (caller : Principal) (st : State) (principal_id : Principal) :
    Except OperationError Unit × State :=
  if !(is_controller caller st) then
    (Except.error OperationError.NotAuthorized, st)
  else
    let r := Registry.remove st.registry principal_id
    (r.2, { st with registry := r.1 })

/-- get query method: read directly from the registry. -/
def get (st : State) (principal_id : Principal) : Option NftCanister :=
  Registry.get st.registry principal_id

/-- get_all query method: read all records. -/
def get_all (st : State) : List NftCanister :=
  Registry.get_all st.registry

/-! ### Concrete fixtures used by witnesses and counterexamples -/

/-- A first principal, playing the controller in witnesses. -/
def aa : Principal := ⟨0⟩

/-- A second, distinct principal. -/
def bb : Principal := ⟨1⟩

/-- The principal used as a record key in witnesses. -/
def xtc : Principal := ⟨2⟩

/-- A concrete stand-in for validate_url accepting the thumbnail used in
the repository tests. -/
def vurlW : String → Bool := fun s => s == ("https://google.com" : String)

/-- The well-formed record of the repository tests. -/
def ciW : NftCanister :=
  { name := ("xtc" : String)
  , description := ("XTC is your cycles wallet." : String)
  , thumbnail := ("https://google.com" : String)
  , frontend := none
  , principal_id := xtc
  , details := [(("standard" : String), DetailValue.Text ("Dank"))] }

/-- The state right after initialization by aa, with an empty registry. -/
def st0 : State := { controller := aa, registry := [] }

/-- A record like ciW but with two detail pairs (attributes length 2). -/
def ciBadAttrs : NftCanister :=
  { ciW with details := [(("standard" : String), DetailValue.Text ("Dank")),
                         (("standard" : String), DetailValue.Text ("Dank"))] }

/-- A record like ciW but with an empty details list. -/
def ciEmptyAttrs : NftCanister := { ciW with details := [] }

/-- A 120-character pure-ASCII name: 120 UTF-8 bytes. -/
def nameA120 : String := String.mk (List.replicate 120 (Char.ofNat 97))

/-- A 120-character name whose first character (U+00E9) takes two UTF-8
bytes: 121 bytes in total. -/
def nameE120 : String := String.mk (Char.ofNat 233 :: List.replicate 119 (Char.ofNat 97))

/-- The test record with the 120-character / 121-byte name. -/
def ciLong : NftCanister := { ciW with name := nameE120 }

/-- The test record with the 120-character / 120-byte name. -/
def ciW120 : NftCanister := { ciW with name := nameA120 }

/-- A two-record registry with distinct keys, used as a witness. -/
def regW : Registry := [(xtc, ciW), (bb, ciW)]

/-! ### List-level helper lemmas about the association-list map model -/

/-- After filtering a key out, a lookup for that key finds nothing. -/
theorem find?_filter_self (l : Registry) (k : Principal) :
    (l.filter (fun q => q.1 != k)).find? (fun q => q.1 == k) = none := by
  rw [List.find?_eq_none]
  intro x hx
  have hmem := List.of_mem_filter hx
  simp only [bne_iff_ne, ne_eq, decide_eq_true_eq] at hmem
  simp [hmem]

/-- Filtering one key out does not change the lookup of a different key. -/
theorem find?_filter_other (l : Registry) (k q : Principal) (h : q ≠ k) :
    (l.filter (fun p => p.1 != k)).find? (fun p => p.1 == q) =
      l.find? (fun p => p.1 == q) := by
  induction l with
  | nil => rfl
  | cons a l ih =>
    by_cases hak : a.1 = k
    · have h1 : (a.1 != k) = false := by simp [hak]
      have h2 : (a.1 == q) = false := by
        rw [beq_eq_false_iff_ne, hak]
        exact fun hkq => h hkq.symm
      rw [List.filter_cons, h1, if_neg (by simp), List.find?_cons, h2, ih]
    · have h1 : (a.1 != k) = true := by simp [hak]
      rw [List.filter_cons, h1, if_pos rfl, List.find?_cons, List.find?_cons]
      cases h2 : (a.1 == q) with
      | true => rfl
      | false => exact ih

/-- Folding HashMap insertion over a list of pairs with pairwise distinct
keys, starting from a map whose keys are also disjoint from it, appends
the list unchanged. -/
theorem foldl_hmInsert_nodup (l acc : Registry)
    (h : ((acc ++ l).map Prod.fst).Nodup) :
    l.foldl (fun a p => hmInsert a p.1 p.2) acc = acc ++ l := by
  induction l generalizing acc with
  | nil => simp
  | cons p l ih =>
    have hdisj : (acc.map Prod.fst).Disjoint ((p :: l).map Prod.fst) := by
      have := h
      rw [List.map_append] at this
      exact List.disjoint_of_nodup_append this
    have hins : hmInsert acc p.1 p.2 = acc ++ [p] := by
      unfold hmInsert
      have hfil : acc.filter (fun q => q.1 != p.1) = acc := by
        rw [List.filter_eq_self]
        intro a ha
        simp only [bne_iff_ne, ne_eq, decide_eq_true_eq]
        intro hap
        exact hdisj (List.mem_map_of_mem Prod.fst ha)
          (by simp [← hap])
      rw [hfil]
    have hrearr : acc ++ p :: l = (acc ++ [p]) ++ l := by simp
    rw [List.foldl_cons, hins, ih (acc ++ [p]) (by rw [← hrearr]; exact h)]
    simp

/-! ### C3: unauthorized callers are rejected before validation -/

/-- C3: for every caller different from the current controller and every
record whatsoever, add returns NotAuthorized with the state unchanged:
authorization is decided strictly before validation (no panic, no other
error can occur), so the outcome is independent of the record and of the
URL validator. -/
theorem add_unauthorized (vurl : String → Bool) (caller : Principal) (st : State)
    (ci : NftCanister) (h : caller ≠ st.controller) :
    add vurl caller st ci = some (Except.error OperationError.NotAuthorized, st) := by
  have hc : is_controller caller st = false := by
    simp [is_controller]
    exact h
  simp [add, hc]

/-- Witness for add_unauthorized: principal bb is not the controller of
st0, and add from bb on the test record is NotAuthorized. -/
theorem add_unauthorized_witness :
    bb ≠ st0.controller ∧
    add vurlW bb st0 ciW = some (Except.error OperationError.NotAuthorized, st0) :=
  ⟨by decide, add_unauthorized vurlW bb st0 ciW (by decide)⟩

/-! ### C8: registry insertion is an unconditional upsert -/

/-- C8: Registry.add always returns Ok, and afterwards the lookup of the
record key yields the new record — in particular an existing binding of
the same key is silently overwritten, while other keys are untouched. -/
theorem registry_add_upsert (r : Registry) (ci : NftCanister) :
    (Registry.add r ci).2 = Except.ok () ∧
    Registry.get (Registry.add r ci).1 ci.principal_id = some ci ∧
    ∀ q, q ≠ ci.principal_id →
      Registry.get (Registry.add r ci).1 q = Registry.get r q := by
  refine ⟨rfl, ?_, ?_⟩
  · simp [Registry.add, Registry.get, hmInsert, find?_filter_self]
  · intro q hq
    simp only [Registry.add, Registry.get, hmInsert, List.find?_append]
    rw [find?_filter_other r ci.principal_id q hq]
    have hne : (ci.principal_id == q) = false := by
      rw [beq_eq_false_iff_ne]
      exact fun hcq => hq hcq.symm
    have hlast : ([(ci.principal_id, ci)] : Registry).find? (fun p => p.1 == q) = none := by
      simp [List.find?_cons, hne]
    rw [hlast]
    cases r.find? (fun p => p.1 == q) <;> rfl

/-- Witness for registry_add_upsert: inserting ciW into regW keeps the
lookup of the unrelated key bb unchanged. -/
theorem registry_add_upsert_witness :
    (Registry.add regW ciW).2 = Except.ok () ∧ bb ≠ ciW.principal_id ∧
    Registry.get (Registry.add regW ciW).1 bb = Registry.get regW bb :=
  ⟨(registry_add_upsert regW ciW).1, by decide,
   (registry_add_upsert regW ciW).2.2 bb (by decide)⟩

/-! ### C9: update operations are atomic on error -/

/-- C9: whenever add, remove or set_controller returns an Err value, the
returned state (controller and registry alike) is exactly the state the
call started from: no partial mutation is observable on any failure. -/
theorem updates_atomic (vurl : String → Bool) (caller : Principal) (st : State)
    (ci : NftCanister) (pid new_controller : Principal) (e : OperationError)
    (st' : State) :
    (add vurl caller st ci = some (Except.error e, st') → st' = st) ∧
    (remove caller st pid = (Except.error e, st') → st' = st) ∧
    (set_controller caller st new_controller = (Except.error e, st') → st' = st) := by
  refine ⟨?_, ?_, ?_⟩
  · intro h
    by_cases h1 : is_controller caller st
    · by_cases h2 : vurl ci.thumbnail
      · by_cases h3 : (match ci.frontend with
                       | some f => !(vurl f)
                       | none => false) = true
        · simp [add, h1, h2, h3] at h
          exact h.2.symm
        · cases hd : ci.details.head? with
          | none => simp [add, h1, h2, h3, hd] at h
          | some kv =>
            by_cases h4 : kv.1 = ("standard" : String)
            · by_cases h5 : ci.details.length = 1
              · by_cases h6 : ci.name.utf8ByteSize ≤ 120 ∧
                              ci.description.utf8ByteSize ≤ 1200
                · simp [add, h1, h2, h3, hd, h4, h5, h6, Registry.add] at h
                · simp [add, h1, h2, h3, hd, h4, h5, h6] at h
                  exact h.2.symm
              · simp [add, h1, h2, h3, hd, h4, h5] at h
                exact h.2.symm
            · simp [add, h1, h2, h3, hd, h4] at h
              exact h.2.symm
      · simp [add, h1, h2] at h
        exact h.2.symm
    · simp [add, h1] at h
      exact h.2.symm
  · intro h
    by_cases h1 : is_controller caller st
    · by_cases h2 : (st.registry.find? (fun q => q.1 == pid)).isSome
      · simp [remove, h1, Registry.remove, h2] at h
      · simp [remove, h1, Registry.remove, h2] at h
        exact h.2.symm
    · simp [remove, h1] at h
      exact h.2.symm
  · intro h
    by_cases h1 : is_controller caller st
    · simp [set_controller, h1] at h
    · simp [set_controller, h1] at h
      exact h.2.symm

/-- Witness for updates_atomic: an unauthorized add from bb returns an
error and the state it returns is the unchanged st0. -/
theorem updates_atomic_witness :
    add vurlW bb st0 ciW =
      some (Except.error OperationError.NotAuthorized, st0) ∧ st0 = st0 :=
  ⟨rfl,
   (updates_atomic vurlW bb st0 ciW xtc aa OperationError.NotAuthorized st0).1 rfl⟩

/-! ### C1: the attribute-shape checks in add -/



/-- Counterexample to C1 as stated: a non-controller caller with a
length-2 attribute list receives NotAuthorized, not BadParameters, so
the outcome is not independent of the caller; and with an empty
attribute list even the controller gets a panic (index out of bounds on
details[0], modelled as none), not BadParameters — the key check (d)
runs before the length check (c). -/
theorem add_attr_claim_cex :
    add vurlW bb st0 ciBadAttrs =
      some (Except.error OperationError.NotAuthorized, st0) ∧
    add vurlW aa st0 ciEmptyAttrs = none :=
  ⟨rfl, rfl⟩

/-- C1 amended: for the controller caller and a record whose attributes
list is non-empty (head? = some kv) but does not have exactly one pair
with key "standard", add returns BadParameters and never any other
outcome; the key check is evaluated before the length check, an empty
list panics instead, and a non-controller caller gets NotAuthorized. -/
theorem add_bad_attributes (vurl : String → Bool) (st : State) (ci : NftCanister)
    (kv : String × DetailValue) (hd : ci.details.head? = some kv)
    (hbad : ci.details.length ≠ 1 ∨ kv.1 ≠ ("standard" : String)) :
    add vurl st.controller st ci =
      some (Except.error OperationError.BadParameters, st) := by
  have h1 : is_controller st.controller st = true := by simp [is_controller]
  by_cases h2 : vurl ci.thumbnail
  · by_cases h3 : (match ci.frontend with
                   | some f => !(vurl f)
                   | none => false) = true
    · simp [add, h1, h2, h3]
    · by_cases h4 : kv.1 = ("standard" : String)
      · have h5 : ci.details.length ≠ 1 := hbad.resolve_right (fun hn => hn h4)
        simp [add, h1, h2, h3, hd, h4, h5]
      · simp [add, h1, h2, h3, hd, h4]
  · simp [add, h1, h2]

/-- Witness for add_bad_attributes: the controller aa adding the
length-2 record gets BadParameters. -/
theorem add_bad_attributes_witness :
    ciBadAttrs.details.head? =
      some ((("standard" : String), DetailValue.Text ("Dank"))) ∧
    add vurlW st0.controller st0 ciBadAttrs =
      some (Except.error OperationError.BadParameters, st0) :=
  ⟨rfl, add_bad_attributes vurlW st0 ciBadAttrs
    (("standard" : String), DetailValue.Text ("Dank")) rfl
    (Or.inl (by decide))⟩

/-! ### C2: the name/description length limits -/



/-- Counterexample to C2 as stated: an otherwise-valid record whose name
has exactly 120 characters is rejected with BadParameters, because the
code limits Rust String::len() — UTF-8 bytes, 121 here — not
characters. -/
theorem add_name_chars_cex :
    ciLong.name.length = 120 ∧
    add vurlW aa st0 ciLong =
      some (Except.error OperationError.BadParameters, st0) :=
  ⟨by decide, rfl⟩

/-- C2 amended: for the controller and an otherwise-valid record, add
succeeds iff the name is at most 120 UTF-8 bytes and the description at
most 1200 UTF-8 bytes (so a 120-byte name succeeds and a 121-byte name
fails), and returns BadParameters otherwise. -/
theorem add_length_limits (vurl : String → Bool) (st : State) (ci : NftCanister)
    (v : DetailValue)
    (hthumb : vurl ci.thumbnail = true)
    (hfront : ∀ f, ci.frontend = some f → vurl f = true)
    (hdet : ci.details = [(("standard" : String), v)]) :
    (ci.name.utf8ByteSize ≤ 120 ∧ ci.description.utf8ByteSize ≤ 1200 →
      add vurl st.controller st ci =
        some (Except.ok (),
              { st with registry := hmInsert st.registry ci.principal_id ci })) ∧
    (¬ (ci.name.utf8ByteSize ≤ 120 ∧ ci.description.utf8ByteSize ≤ 1200) →
      add vurl st.controller st ci =
        some (Except.error OperationError.BadParameters, st)) := by
  have h1 : is_controller st.controller st = true := by simp [is_controller]
  have h3 : (match ci.frontend with
             | some f => !(vurl f)
             | none => false) = false := by
    cases hf : ci.frontend with
    | none => rfl
    | some f => simp [hfront f hf]
  constructor
  · intro h6
    simp [add, h1, hthumb, h3, hdet, h6, Registry.add]
  · intro h6
    simp [add, h1, hthumb, h3, hdet, h6]

/-- Witness for add_length_limits: the controller adding the record with
the 120-byte name succeeds. -/
theorem add_length_limits_witness :
    vurlW ciW120.thumbnail = true ∧
    ciW120.name.utf8ByteSize = 120 ∧
    add vurlW st0.controller st0 ciW120 =
      some (Except.ok (),
            { st0 with registry := hmInsert st0.registry ciW120.principal_id ciW120 }) :=
  ⟨rfl, by decide,
   (add_length_limits vurlW st0 ciW120 (DetailValue.Text ("Dank")) rfl
     (fun f hf => Option.noConfusion hf) rfl).1 (by decide)⟩

/-! ### C4 and C5: snapshot export / import -/

/-- C4: archiving drains the registry to empty and returns its prior
contents, and loading that result back (registry keys are unique in any
HashMap state, hence the Nodup hypothesis) restores exactly the same
pairs. -/
theorem archive_load_roundtrip (r : Registry) (h : (r.map Prod.fst).Nodup) :
    (Registry.archive r).2 = [] ∧
    (Registry.archive r).1 = r ∧
    Registry.load (Registry.archive r).2 (Registry.archive r).1 = some r := by
  refine ⟨rfl, rfl, ?_⟩
  show Registry.load [] r = some r
  exact congrArg some (foldl_hmInsert_nodup r [] (by simpa using h))



/-- Witness for archive_load_roundtrip on a concrete two-entry
registry. -/
theorem archive_load_roundtrip_witness :
    (regW.map Prod.fst).Nodup ∧
    Registry.load (Registry.archive regW).2 (Registry.archive regW).1 = some regW :=
  ⟨by decide, (archive_load_roundtrip regW (by decide)).2.2⟩

/-- C5: Registry.load invoked on a non-empty registry hits the failing
assert (a panic, modelled as none) and never merges; on an empty
registry the assert is unreachable and the archive list (whose keys are
unique, coming from a HashMap) is bulk-inserted unchanged. -/
theorem load_requires_empty (r : Registry) (l : List (Principal × NftCanister)) :
    (r ≠ [] → Registry.load r l = none) ∧
    ((l.map Prod.fst).Nodup → Registry.load [] l = some l) := by
  constructor
  · intro h
    cases r with
    | nil => exact absurd rfl h
    | cons a t => rfl
  · intro h
    exact congrArg some (foldl_hmInsert_nodup l [] (by simpa using h))

/-- Witness for load_requires_empty: loading anything into the non-empty
regW panics. -/
theorem load_requires_empty_witness :
    regW ≠ [] ∧ Registry.load regW [] = none :=
  ⟨List.cons_ne_nil _ _, (load_requires_empty regW []).1 (List.cons_ne_nil _ _)⟩

/-! ### Helper: an authorized add never reports NotAuthorized -/

/-- If the caller is the controller, whatever add returns (when it
returns at all) is not the NotAuthorized error. -/
theorem add_authorized_result (vurl : String → Bool) (caller : Principal)
    (st : State) (ci : NftCanister) (out : Except OperationError Unit × State)
    (hc : is_controller caller st = true)
    (h : add vurl caller st ci = some out) :
    out.1 ≠ Except.error OperationError.NotAuthorized := by
  by_cases h2 : vurl ci.thumbnail
  · by_cases h3 : (match ci.frontend with
                   | some f => !(vurl f)
                   | none => false) = true
    · simp [add, hc, h2, h3] at h
      subst h
      simp
    · cases hd : ci.details.head? with
      | none => simp [add, hc, h2, h3, hd] at h
      | some kv =>
        by_cases h4 : kv.1 = ("standard" : String)
        · by_cases h5 : ci.details.length = 1
          · by_cases h6 : ci.name.utf8ByteSize ≤ 120 ∧
                          ci.description.utf8ByteSize ≤ 1200
            · simp [add, hc, h2, h3, hd, h4, h5, h6, Registry.add] at h
              subst h
              simp
            · simp [add, hc, h2, h3, hd, h4, h5, h6] at h
              subst h
              simp
          · simp [add, hc, h2, h3, hd, h4, h5] at h
            subst h
            simp
        · simp [add, hc, h2, h3, hd, h4] at h
          subst h
          simp
  · simp [add, hc, h2] at h
    subst h
    simp

/-! ### C6: replacing the controller -/

/-- C6: set_controller succeeds and overwrites the controller state iff
the caller is the current controller, otherwise returns NotAuthorized
with the state unchanged; and after a successful handover from the old
controller to a different principal, add by the old controller is
NotAuthorized while add by the new controller never fails
authorization. -/
theorem replace_controller_spec (caller new_controller : Principal) (st : State)
    (ci : NftCanister) (vurl : String → Bool) :
    (caller = st.controller →
      set_controller caller st new_controller =
        (Except.ok (), { st with controller := new_controller })) ∧
    (caller ≠ st.controller →
      set_controller caller st new_controller =
        (Except.error OperationError.NotAuthorized, st)) ∧
    (caller = st.controller → caller ≠ new_controller →
      add vurl caller (set_controller caller st new_controller).2 ci =
        some (Except.error OperationError.NotAuthorized,
              (set_controller caller st new_controller).2) ∧
      ∀ out, add vurl new_controller (set_controller caller st new_controller).2 ci =
          some out → out.1 ≠ Except.error OperationError.NotAuthorized) := by
  refine ⟨?_, ?_, ?_⟩
  · intro h
    simp [set_controller, is_controller, h]
  · intro h
    have hc : is_controller caller st = false := by
      simp [is_controller]
      exact h
    simp [set_controller, hc]
  · intro h hne
    have hst : (set_controller caller st new_controller).2 =
        { st with controller := new_controller } := by
      simp [set_controller, is_controller, h]
    constructor
    · have hc : is_controller caller (set_controller caller st new_controller).2 = false := by
        rw [hst]
        simp [is_controller]
        exact hne
      simp [add, hc]
    · intro out hout
      have hc : is_controller new_controller (set_controller caller st new_controller).2 = true := by
        rw [hst]
        simp [is_controller]
      exact add_authorized_result vurl new_controller
        (set_controller caller st new_controller).2 ci out hc hout

/-- Witness for replace_controller_spec: aa hands the controller role of
st0 over to bb, afterwards add by aa is NotAuthorized. -/
theorem replace_controller_spec_witness :
    aa = st0.controller ∧ aa ≠ bb ∧
    set_controller aa st0 bb = (Except.ok (), { st0 with controller := bb }) ∧
    add vurlW aa (set_controller aa st0 bb).2 ciW =
      some (Except.error OperationError.NotAuthorized, (set_controller aa st0 bb).2) :=
  ⟨rfl, by decide,
   (replace_controller_spec aa bb st0 ciW vurlW).1 rfl,
   ((replace_controller_spec aa bb st0 ciW vurlW).2.2 rfl (by decide)).1⟩

/-! ### C7: removing records -/

/-- C7: for the controller caller, remove on an absent identifier
returns NonExistentItem and hands back the unchanged state, while remove
on a present identifier returns Ok and a subsequent get of that
identifier finds nothing. -/
theorem remove_spec (caller : Principal) (st : State) (pid : Principal)
    (hauth : caller = st.controller) :
    (Registry.get st.registry pid = none →
      remove caller st pid = (Except.error OperationError.NonExistentItem, st)) ∧
    (∀ c, Registry.get st.registry pid = some c →
      (remove caller st pid).1 = Except.ok () ∧
      get (remove caller st pid).2 pid = none) := by
  have h1 : is_controller caller st = true := by simp [is_controller, hauth]
  constructor
  · intro habs
    cases hf : st.registry.find? (fun q => q.1 == pid) with
    | none => simp [remove, h1, Registry.remove, hf]
    | some p =>
      rw [Registry.get, hf] at habs
      simp at habs
  · intro c hc
    cases hf : st.registry.find? (fun q => q.1 == pid) with
    | none =>
      rw [Registry.get, hf] at hc
      simp at hc
    | some p =>
      constructor
      · simp [remove, h1, Registry.remove, hf]
      · simp [remove, h1, Registry.remove, hf, get, Registry.get, find?_filter_self]

/-- Witness for remove_spec: removing the absent xtc from the empty
registry of st0 is NonExistentItem with st0 unchanged. -/
theorem remove_spec_witness :
    Registry.get st0.registry xtc = none ∧
    remove aa st0 xtc = (Except.error OperationError.NonExistentItem, st0) :=
  ⟨rfl, (remove_spec aa st0 xtc rfl).1 rfl⟩

/-! ### C10: a successful add stores the record verbatim -/

/-- C10: whenever add returns Ok, the resulting state maps the record
key to exactly the record that was passed in (no normalization or
transformation), and the lookup of every other identifier is
unchanged. -/
theorem add_success_get (vurl : String → Bool) (caller : Principal) (st : State)
    (ci : NftCanister) (st' : State)
    (h : add vurl caller st ci = some (Except.ok (), st')) :
    get st' ci.principal_id = some ci ∧
    ∀ q, q ≠ ci.principal_id → get st' q = get st q := by
  have hst : st' = { st with registry := hmInsert st.registry ci.principal_id ci } := by
    by_cases h1 : is_controller caller st
    · by_cases h2 : vurl ci.thumbnail
      · by_cases h3 : (match ci.frontend with
                       | some f => !(vurl f)
                       | none => false) = true
        · simp [add, h1, h2, h3] at h
        · cases hd : ci.details.head? with
          | none => simp [add, h1, h2, h3, hd] at h
          | some kv =>
            by_cases h4 : kv.1 = ("standard" : String)
            · by_cases h5 : ci.details.length = 1
              · by_cases h6 : ci.name.utf8ByteSize ≤ 120 ∧
                              ci.description.utf8ByteSize ≤ 1200
                · simp [add, h1, h2, h3, hd, h4, h5, h6, Registry.add] at h
                  exact h.symm
                · simp [add, h1, h2, h3, hd, h4, h5, h6] at h
              · simp [add, h1, h2, h3, hd, h4, h5] at h
            · simp [add, h1, h2, h3, hd, h4] at h
      · simp [add, h1, h2] at h
    · simp [add, h1] at h
  subst hst
  constructor
  · simp [get, Registry.get, hmInsert, List.find?_append, find?_filter_self]
  · intro q hq
    simp only [get, Registry.get, hmInsert, List.find?_append]
    rw [find?_filter_other st.registry ci.principal_id q hq]
    have hne2 : (ci.principal_id == q) = false := by
      rw [beq_eq_false_iff_ne]
      exact fun hcq => hq hcq.symm
    have hlast : ([(ci.principal_id, ci)] : Registry).find? (fun p => p.1 == q) = none := by
      simp [List.find?_cons, hne2]
    rw [hlast]
    cases st.registry.find? (fun p => p.1 == q) <;> rfl

/-- Witness for add_success_get: after the controller aa adds ciW to
st0, get of its key returns ciW itself. -/
theorem add_success_get_witness :
    add vurlW aa st0 ciW =
      some (Except.ok (), { st0 with registry := [(xtc, ciW)] }) ∧
    get { st0 with registry := [(xtc, ciW)] } ciW.principal_id = some ciW :=
  ⟨rfl,
   (add_success_get vurlW aa st0 ciW { st0 with registry := [(xtc, ciW)] } rfl).1⟩

end Nft
